import Mathlib

/-!
Verification of the recording/transcription core of the `super-whisper-linux`
daemon (a push-to-talk dictation tool written in Rust).

The development shallowly embeds the relevant source functions:

* `resample` — `src/audio/capture.rs`, linear-interpolation resampler.
  Audio samples and index arithmetic are idealised as exact rationals
  (the code computes with `f32`/`f64`); `as usize` casts of non-negative
  finite values truncate, which over `ℚ` is floor, i.e. `Nat` division.
* `AudioData` and its emptiness test — `src/stt/provider.rs`.
* The orchestrator (`App` in `src/app.rs`) — a state record plus one
  function per operation.  External effects (capture-device construction,
  provider presence, the transcription outcome) are inputs in an `Env`
  record; the `set_state` broadcasts and the recovery sleep are recorded
  in an event trace.
* The provider constructors and the pre-network part of each `transcribe`
  implementation — `src/stt/cloud/groq.rs`, `src/stt/cloud/deepgram.rs`,
  `src/stt/local/whisper.rs`.  The HTTP response (and the local model's
  inference outcome) are inputs; in-memory WAV encoding and multipart
  assembly, which cannot fail in practice, are modelled as succeeding.
-/

namespace SuperWhisper

/-- Linear-interpolation resampler, from `resample` in `src/audio/capture.rs`.
`output_len = (samples.len() as f64 * ratio) as usize` truncates, modelled by
`Nat` division; `src_idx as usize` likewise. `samples` indexed out of range
never happens in-range branches (`getD` default is irrelevant there). -/
def resample (samples : List ℚ) (sourceRate targetRate : ℕ) : List ℚ :=
  if sourceRate = targetRate then samples
  else
    let outputLen : ℕ := samples.length * targetRate / sourceRate
    (List.range outputLen).map fun i =>
      let idx : ℕ := i * sourceRate / targetRate
      let frac : ℚ := (i * sourceRate : ℚ) / targetRate - idx
      if idx + 1 < samples.length then
        samples.getD idx 0 * (1 - frac) + samples.getD (idx + 1) 0 * frac
      else if idx < samples.length then
        samples.getD idx 0
      else 0

/-- Audio snapshot, from `AudioData` in `src/stt/provider.rs`. -/
structure AudioData where
  samples : List ℚ
  sampleRate : ℕ
deriving DecidableEq, Repr

/-- Duration in seconds, from `AudioData::duration` (`len as f32 / rate as f32`,
idealised as exact division; a zero rate panics in Rust and is excluded by a
positivity hypothesis wherever it matters). -/
def AudioData.duration (a : AudioData) : ℚ :=
  (a.samples.length : ℚ) / (a.sampleRate : ℚ)

/-- Emptiness test, from `AudioData::is_empty`: no samples, or duration below
100 ms. -/
def AudioData.is_empty (a : AudioData) : Bool :=
  a.samples.isEmpty || decide (a.duration < 1 / 10)

/-- Application states, from `AppState` in `src/app.rs`. -/
inductive AppState where
  | Idle
  | Recording
  | Processing
  | Error
deriving DecidableEq, Repr

/-- IPC commands, from `IpcCommand` in `src/ipc/socket.rs`. -/
inductive IpcCommand where
  | Toggle
  | Start
  | Stop
  | Cancel
  | Status
  | Shutdown
deriving DecidableEq, Repr

/-- Speech-to-text errors, from `SttError` in `src/error.rs`. -/
inductive SttError where
  | ModelError (msg : String)
  | TranscriptionError (msg : String)
  | ApiError (msg : String)
  | NetworkError (msg : String)
  | InvalidAudio (msg : String)
  | ProviderUnavailable (msg : String)
deriving DecidableEq, Repr

/-- Application errors, from `AppError` in `src/error.rs` (the variants the
orchestrator produces). -/
inductive AppError where
  | Audio (msg : String)
  | Stt (e : SttError)
  | Other (msg : String)
deriving DecidableEq, Repr

/-- Orchestrator state, from the fields of `App` in `src/app.rs`: the broadcast
state value, the sample buffer, and whether the `audio_capture`,
`audio_stream` and `audio_task` slots hold a value (`Some` vs `None`).
Each slot holds at most one value by construction, mirroring the `Option`
slots of the Rust struct. -/
structure AppModel where
  state : AppState
  buffer : List ℚ
  hasCapture : Bool
  hasStream : Bool
  hasTask : Bool
deriving DecidableEq, Repr

/-- Observable events emitted while an operation runs: each `set_state`
broadcast, and the recovery sleep, in program order. -/
inductive Event where
  | setState (s : AppState)
  | sleepSecs (n : ℕ)
deriving DecidableEq, Repr

instance {ε α : Type} [DecidableEq ε] [DecidableEq α] : DecidableEq (Except ε α)
  | .error a, .error b =>
    if h : a = b then .isTrue (by rw [h]) else .isFalse (by simp [h])
  | .error _, .ok _ => .isFalse (by simp)
  | .ok _, .error _ => .isFalse (by simp)
  | .ok a, .ok b =>
    if h : a = b then .isTrue (by rw [h]) else .isFalse (by simp [h])

/-- Result of one orchestrator operation: the state record after it, the Rust
return value's error (if any), whether the provider's `transcribe` was
invoked (and with what result), how many `CaptureSession`s (capture plus
stream plus accumulation task) were created, and the event trace. -/
structure StepResult where
  model : AppModel
  err : Option AppError
  transcription : Option (Except SttError String)
  sessionsCreated : ℕ
  trace : List Event
deriving DecidableEq, Repr

/-- Whether the operation invoked the provider's `transcribe`. -/
def StepResult.transcribeCalled (r : StepResult) : Bool :=
  r.transcription.isSome

/-- The orchestrator's external collaborators, supplied as inputs: whether
constructing and starting the capture device succeeds, whether the provider
slot is initialised, and the outcome the provider's backend (network or
local inference) would deliver for valid audio. -/
structure Env where
  captureOk : Bool
  providerSome : Bool
  transcribeResult : Except SttError String
deriving DecidableEq, Repr

/-- Result of an operation that performs no work, matching the command-guard
fall-throughs in `App::handle_command`. -/
def noopResult (a : AppModel) : StepResult :=
  { model := a, err := none, transcription := none, sessionsCreated := 0, trace := [] }

/-- The shared head of every provider's `transcribe`: audio failing
`is_empty` is rejected with `InvalidAudio` before the backend runs;
otherwise the outcome is the backend's. -/
def provider_transcribe (env : Env) (audio : AudioData) : Except SttError String :=
  if audio.is_empty then .error (.InvalidAudio "Audio is empty or too short")
  else env.transcribeResult

/-- From `App::start_recording` in `src/app.rs`: abort any lingering
accumulation task, clear the buffer, build and start the capture (which can
fail, aborting the operation with the slots and state as they then are),
store capture and stream, broadcast `Recording`, spawn and store the
accumulation task. -/
def start_recording (env : Env) (a : AppModel) : StepResult :=
  let a1 : AppModel := { a with hasTask := false, buffer := [] }
  if env.captureOk then
    { model := { a1 with hasCapture := true, hasStream := true,
                         state := .Recording, hasTask := true },
      err := none, transcription := none, sessionsCreated := 1,
      trace := [.setState .Recording] }
  else
    { model := a1, err := some (.Audio "capture"), transcription := none,
      sessionsCreated := 0, trace := [] }

/-- From `App::stop_and_transcribe` in `src/app.rs`: broadcast `Processing`;
stop and drop the capture, stream and task; clone the buffer; if the clone
is empty broadcast `Idle` and return; otherwise require the provider and
transcribe, broadcasting `Idle` on success, or `Error`, sleeping 2 s and
broadcasting `Idle` on failure.  The buffer itself is not cleared. -/
def stop_and_transcribe (env : Env) (sampleRate : ℕ) (a : AppModel) : StepResult :=
  let a1 : AppModel := { a with state := .Processing,
                                hasCapture := false, hasStream := false, hasTask := false }
  if a.buffer.isEmpty then
    { model := { a1 with state := .Idle }, err := none, transcription := none,
      sessionsCreated := 0, trace := [.setState .Processing, .setState .Idle] }
  else if env.providerSome then
    match provider_transcribe env (AudioData.mk a.buffer sampleRate) with
    | .ok t =>
      { model := { a1 with state := .Idle }, err := none, transcription := some (.ok t),
        sessionsCreated := 0, trace := [.setState .Processing, .setState .Idle] }
    | .error e =>
      { model := { a1 with state := .Idle }, err := none, transcription := some (.error e),
        sessionsCreated := 0,
        trace := [.setState .Processing, .setState .Error, .sleepSecs 2, .setState .Idle] }
  else
    { model := a1, err := some (.Other "Provider not initialized"), transcription := none,
      sessionsCreated := 0, trace := [.setState .Processing] }

/-- From `App::cancel` in `src/app.rs`: broadcast `Idle`, stop and drop the
capture, stream and task, clear the buffer. -/
def cancel (a : AppModel) : StepResult :=
  { model := { a with state := .Idle, buffer := [],
                      hasCapture := false, hasStream := false, hasTask := false },
    err := none, transcription := none, sessionsCreated := 0,
    trace := [.setState .Idle] }

/-- From `App::handle_command` in `src/app.rs`: dispatch on the command,
guarded by the current state; mismatched commands do nothing. -/
def handle_command (env : Env) (sampleRate : ℕ) (cmd : IpcCommand) (a : AppModel) :
    StepResult :=
  match cmd with
  | .Toggle =>
    match a.state with
    | .Idle => start_recording env a
    | .Recording => stop_and_transcribe env sampleRate a
    | _ => noopResult a
  | .Start => if a.state = .Idle then start_recording env a else noopResult a
  | .Stop => if a.state = .Recording then stop_and_transcribe env sampleRate a else noopResult a
  | .Cancel => cancel a
  | .Status => noopResult a
  | .Shutdown => { noopResult a with err := some (.Other "Shutdown") }

/-- Per-provider configuration table, from `OpenAIConfig`, `GroqConfig` and
`DeepgramConfig` in `src/config/schema.rs` (the fields the constructors
read). -/
structure OpenAIConfig where
  apiKey : Option String
  model : String
  endpoint : String
deriving DecidableEq, Repr

structure GroqConfig where
  apiKey : Option String
  model : String
  endpoint : String
deriving DecidableEq, Repr

structure DeepgramConfig where
  apiKey : Option String
  model : String
  features : List String
deriving DecidableEq, Repr

structure ProvidersConfig where
  openai : OpenAIConfig
  groq : GroqConfig
  deepgram : DeepgramConfig
deriving DecidableEq, Repr

/-- The process environment variables the key accessors fall back to. -/
structure EnvVars where
  openaiKey : Option String
  groqKey : Option String
  deepgramKey : Option String
deriving DecidableEq, Repr

/-- Application configuration, from `AppConfig` in `src/config/mod.rs` (the
part the providers read), with the process environment attached. -/
structure AppConfig where
  providers : ProvidersConfig
  envv : EnvVars
deriving DecidableEq, Repr

/-- From `AppConfig::openai_api_key`: config value, else environment. -/
def AppConfig.openai_api_key (c : AppConfig) : Option String :=
  c.providers.openai.apiKey.orElse fun _ => c.envv.openaiKey

/-- From `AppConfig::groq_api_key`: config value, else environment. -/
def AppConfig.groq_api_key (c : AppConfig) : Option String :=
  c.providers.groq.apiKey.orElse fun _ => c.envv.groqKey

/-- From `AppConfig::deepgram_api_key`: config value, else environment. -/
def AppConfig.deepgram_api_key (c : AppConfig) : Option String :=
  c.providers.deepgram.apiKey.orElse fun _ => c.envv.deepgramKey

/-- Constructed Groq provider, from `GroqProvider` in `src/stt/cloud/groq.rs`. -/
structure GroqProvider where
  apiKey : String
  model : String
  endpoint : String
deriving DecidableEq, Repr

/-- From `GroqProvider::new`: a missing key fails construction with
`ProviderUnavailable`. -/
def GroqProvider.new (c : AppConfig) : Except SttError GroqProvider :=
  match c.groq_api_key with
  | none => .error (.ProviderUnavailable "Groq API key not configured")
  | some k => .ok { apiKey := k, model := c.providers.groq.model,
                    endpoint := c.providers.groq.endpoint }

/-- Constructed Deepgram provider, from `DeepgramProvider` in
`src/stt/cloud/deepgram.rs`. -/
structure DeepgramProvider where
  apiKey : String
  model : String
  features : List String
deriving DecidableEq, Repr

/-- From `DeepgramProvider::new`: a missing key fails construction with
`ProviderUnavailable`. -/
def DeepgramProvider.new (c : AppConfig) : Except SttError DeepgramProvider :=
  match c.deepgram_api_key with
  | none => .error (.ProviderUnavailable "Deepgram API key not configured")
  | some k => .ok { apiKey := k, model := c.providers.deepgram.model,
                    features := c.providers.deepgram.features }

/-- Modelled from the spec: `src/stt/cloud/openai.rs` is referenced by
`src/stt/cloud/mod.rs` and `src/stt/mod.rs` but is not present in the source
tree.  Per the spec (sections 4.3 and 7) the three remote backends differ only
in request shape and response parsing, and missing credentials fail
construction (not the individual call) with `ProviderUnavailable`. -/
structure OpenAIProvider where
  apiKey : String
  model : String
  endpoint : String
deriving DecidableEq, Repr

/-- Modelled from the spec: constructor of the OpenAI provider, failing with
`ProviderUnavailable` when no API key is configured, mirroring the other two
remote constructors. -/
def OpenAIProvider.new (c : AppConfig) : Except SttError OpenAIProvider :=
  match c.openai_api_key with
  | none => .error (.ProviderUnavailable "OpenAI API key not configured")
  | some k => .ok { apiKey := k, model := c.providers.openai.model,
                    endpoint := c.providers.openai.endpoint }

/-- Transcription result, from `TranscriptionResult` in `src/stt/provider.rs`
(wall-clock processing time omitted). -/
structure TranscriptionResult where
  text : String
  language : Option String
  confidence : Option ℚ
deriving DecidableEq, Repr

/-- The outcome the network (or local inference) delivers once a request is
made: the HTTP status success bit, status code, raw body, and the
successfully parsed payload (`none` models a decode failure, which `reqwest`
surfaces as a `NetworkError`). -/
structure HttpResponse (β : Type) where
  success : Bool
  status : ℕ
  body : String
  parsed : Option β
deriving Repr

/-- Result of running a provider's `transcribe`, together with whether the
backend (network request, or local inference) was actually invoked. -/
structure TranscribeStep where
  result : Except SttError TranscriptionResult
  backendInvoked : Bool
deriving Repr

/-- From `GroqProvider::transcribe` in `src/stt/cloud/groq.rs`: reject empty
audio before anything else; then (WAV encode and multipart assembly, which
write to memory and cannot fail in practice, modelled as succeeding) send the
request; non-success status becomes an `ApiError` carrying status and body;
an undecodable body becomes a `NetworkError`; otherwise the parsed `text`
field is the transcript. -/
def groq_transcribe (_p : GroqProvider) (audio : AudioData) (language : Option String)
    (resp : HttpResponse String) : TranscribeStep :=
  if audio.is_empty then
    { result := .error (.InvalidAudio "Audio is empty or too short"), backendInvoked := false }
  else if resp.success then
    match resp.parsed with
    | none => { result := .error (.NetworkError "error decoding response body"),
                backendInvoked := true }
    | some text =>
      { result := .ok { text := text, language := some (language.getD "auto"),
                        confidence := none },
        backendInvoked := true }
  else
    { result := .error (.ApiError ("Groq API error " ++ toString resp.status ++ ": "
                  ++ resp.body)),
      backendInvoked := true }

/-- One Deepgram channel: its alternatives as (transcript, confidence) pairs,
from the `DeepgramResponse` structs in `src/stt/cloud/deepgram.rs`. -/
def DeepgramChannels : Type := List (List (String × ℚ))

/-- From `DeepgramProvider::transcribe` in `src/stt/cloud/deepgram.rs`: same
shape as Groq; on success the first alternative of the first channel is
used, defaulting to an empty transcript and zero confidence. -/
def deepgram_transcribe (_p : DeepgramProvider) (audio : AudioData)
    (language : Option String) (resp : HttpResponse DeepgramChannels) : TranscribeStep :=
  if audio.is_empty then
    { result := .error (.InvalidAudio "Audio is empty or too short"), backendInvoked := false }
  else if resp.success then
    match resp.parsed with
    | none => { result := .error (.NetworkError "error decoding response body"),
                backendInvoked := true }
    | some channels =>
      let pair := ((channels.head?.bind fun c => c.head?).getD ("", 0))
      { result := .ok { text := pair.1, language := some (language.getD "auto"),
                        confidence := some pair.2 },
        backendInvoked := true }
  else
    { result := .error (.ApiError ("Deepgram API error " ++ toString resp.status ++ ": "
                  ++ resp.body)),
      backendInvoked := true }

/-- Modelled from the spec: `transcribe` of the missing OpenAI backend
(`src/stt/cloud/openai.rs`), sharing the common remote shape the spec states:
empty or near-empty audio is rejected before any network call; a non-success
status is surfaced as an `ApiError` carrying status and body. -/
def openai_transcribe (_p : OpenAIProvider) (audio : AudioData) (language : Option String)
    (resp : HttpResponse String) : TranscribeStep :=
  if audio.is_empty then
    { result := .error (.InvalidAudio "Audio is empty or too short"), backendInvoked := false }
  else if resp.success then
    match resp.parsed with
    | none => { result := .error (.NetworkError "error decoding response body"),
                backendInvoked := true }
    | some text =>
      { result := .ok { text := text, language := some (language.getD "auto"),
                        confidence := none },
        backendInvoked := true }
  else
    { result := .error (.ApiError ("OpenAI API error " ++ toString resp.status ++ ": "
                  ++ resp.body)),
      backendInvoked := true }

/-- From `WhisperProvider::transcribe` in `src/stt/local/whisper.rs`: reject
empty audio before any inference; otherwise the concatenated segment text
(or a `TranscriptionError`) is the inference outcome, supplied as input. -/
def whisper_transcribe (audio : AudioData) (language : Option String)
    (inference : Except SttError String) : TranscribeStep :=
  if audio.is_empty then
    { result := .error (.InvalidAudio "Audio is empty or too short"), backendInvoked := false }
  else
    match inference with
    | .error e => { result := .error e, backendInvoked := true }
    | .ok text =>
      { result := .ok { text := text, language := some (language.getD "auto"),
                        confidence := none },
        backendInvoked := true }

/-- The spec's buffer invariant: the sample buffer is empty whenever the
state is `Idle`. -/
def bufferIdleInv (a : AppModel) : Prop :=
  a.state = .Idle → a.buffer = []

instance (a : AppModel) : Decidable (bufferIdleInv a) := by
  unfold bufferIdleInv; infer_instance

/-! ## Resampler theorems -/

example : (resample [1] 3 2).length = 0 := by decide
example : (resample [(1 : ℚ), 2] 1 2).length = 4 := by decide

/-- C1 (amended): for positive source rate, the resample output length is the
truncation (floor) of `input_length * target_rate / source_rate`, not its
rounding; with equal rates it is the input length. -/
theorem resample_length (samples : List ℚ) (sourceRate targetRate : ℕ)
    (hs : 0 < sourceRate) :
    (resample samples sourceRate targetRate).length
      = samples.length * targetRate / sourceRate ∧
    ((resample samples sourceRate targetRate).length : ℤ)
      = ⌊((samples.length : ℚ) * targetRate) / sourceRate⌋ := by
  have hlen : (resample samples sourceRate targetRate).length
      = samples.length * targetRate / sourceRate := by
    by_cases h : sourceRate = targetRate
    · subst h
      simp [resample, Nat.mul_div_cancel _ hs]
    · simp [resample, h]
  refine ⟨hlen, ?_⟩
  have h0 : (0 : ℚ) ≤ ((samples.length : ℚ) * targetRate) / sourceRate := by positivity
  rw [hlen, ← Int.natCast_floor_eq_floor h0]
  have hcast : ((samples.length : ℚ) * targetRate)
      = ((samples.length * targetRate : ℕ) : ℚ) := by push_cast; ring
  rw [hcast, Nat.floor_div_eq_div]

/-- C1 witness: at three input samples, source rate 2, target rate 3, the
output has the nine halves' floor, i.e. four samples. -/
theorem resample_length_witness :
    (resample [(1 : ℚ), 2, 3] 2 3).length = 4 := by
  have h := (resample_length [(1 : ℚ), 2, 3] 2 3 (by decide)).1
  norm_num at h
  exact h

/-- C1 counterexample: for the single-sample input with source rate 3 and
target rate 2 (both positive), the output length is 0, but
`round(1 * 2 / 3) = 1`. -/
theorem resample_length_not_round :
    ((resample [(1 : ℚ)] 3 2).length : ℤ) ≠ round (((1 : ℚ) * 2) / 3) := by
  have h1 : (resample [(1 : ℚ)] 3 2).length = 0 := by decide
  have h2 : round (((1 : ℚ) * 2) / 3) = 1 := by
    norm_num [round_eq]
  rw [h1, h2]
  decide

/-- C7: resampling with source rate equal to target rate is the identity on
the sample sequence. -/
theorem resample_same_rate_id (samples : List ℚ) (rate : ℕ) :
    resample samples rate rate = samples := by
  simp [resample]

/-- C10: the resampler is total — for positive rates the output is a fully
defined list of the computed length — and at every output position whose
mapped source index `i * source / target` reaches the last input sample or
beyond, it emits the last available input sample when that index is in range
and `0` when it is past the end, never failing. -/
theorem resample_total_tail (samples : List ℚ) (sourceRate targetRate : ℕ)
    (hs : 0 < sourceRate) (ht : 0 < targetRate) :
    (resample samples sourceRate targetRate).length
      = samples.length * targetRate / sourceRate ∧
    ∀ i, i < (resample samples sourceRate targetRate).length →
      samples.length ≤ i * sourceRate / targetRate + 1 →
      (resample samples sourceRate targetRate).getD i 0
        = if i * sourceRate / targetRate < samples.length then
            samples.getD (samples.length - 1) 0
          else 0 := by
  refine ⟨(resample_length samples sourceRate targetRate hs).1, ?_⟩
  intro i hi hpast
  by_cases h : sourceRate = targetRate
  · subst h
    have hidx : i * sourceRate / sourceRate = i := Nat.mul_div_cancel _ hs
    rw [resample_same_rate_id] at hi ⊢
    rw [hidx] at hpast ⊢
    have hlt : i < samples.length := hi
    rw [if_pos hlt]
    have : i = samples.length - 1 := by omega
    rw [this]
  · have hlen : (resample samples sourceRate targetRate).length
        = samples.length * targetRate / sourceRate :=
      (resample_length samples sourceRate targetRate hs).1
    have hi' : i < samples.length * targetRate / sourceRate := hlen ▸ hi
    have hnot : ¬ (i * sourceRate / targetRate + 1 < samples.length) := by omega
    simp only [resample, if_neg h]
    rw [List.getD_eq_getElem?_getD, List.getElem?_map, List.getElem?_range hi']
    simp only [Option.map_some', Option.getD_some]
    rw [if_neg hnot]
    by_cases hin : i * sourceRate / targetRate < samples.length
    · rw [if_pos hin, if_pos hin]
      have hgen : ∀ x n : ℕ, n ≤ x + 1 → x < n → x = n - 1 := by
        intro x n h1 h2; omega
      rw [hgen _ _ hpast hin]
    · rw [if_neg hin, if_neg hin]

/-- C10 witness: upsampling two samples from rate 1 to rate 2 gives four
output samples, and position 3 maps to source index 1 (the last sample),
which is emitted. -/
theorem resample_total_tail_witness :
    (resample [(1 : ℚ), 2] 1 2).length = 2 * 2 / 1 ∧
    (resample [(1 : ℚ), 2] 1 2).getD 3 0 = 2 := by
  have h := resample_total_tail [(1 : ℚ), 2] 1 2 (by decide) (by decide)
  refine ⟨h.1, ?_⟩
  have h3 := h.2 3 (by rw [h.1]; decide) (by decide)
  simpa using h3

/-! ## Orchestrator theorems -/

/-- One sample at 10 Hz lasts exactly 100 ms, which is not strictly below
100 ms, so this audio is not treated as empty. -/
theorem audio_one_tenth_not_empty : (AudioData.mk [(1 : ℚ)] 10).is_empty = false := by
  simp only [AudioData.is_empty, AudioData.duration, List.isEmpty_cons, Bool.false_or,
    decide_eq_false_iff_not, not_lt]
  norm_num

/-- One sample at 16000 Hz lasts 1/16000 s, well below 100 ms, so this audio
is treated as empty. -/
theorem audio_short_is_empty : (AudioData.mk [(1 : ℚ)] 16000).is_empty = true := by
  simp only [AudioData.is_empty, AudioData.duration, List.isEmpty_cons, Bool.false_or,
    decide_eq_true_eq]
  norm_num

/-- C2 counterexample: starting from Recording with one buffered sample at
10 Hz (a valid 100 ms recording) and a succeeding provider,
`stop_and_transcribe` ends in `Idle` with the buffer still holding that
sample: the operation does not preserve the Idle-implies-empty-buffer
invariant. -/
theorem bufferIdleInv_not_preserved :
    bufferIdleInv { state := .Recording, buffer := [1], hasCapture := true,
                    hasStream := true, hasTask := true } ∧
    ¬ bufferIdleInv (stop_and_transcribe
        { captureOk := true, providerSome := true, transcribeResult := .ok "hello" } 10
        { state := .Recording, buffer := [1], hasCapture := true,
          hasStream := true, hasTask := true }).model := by
  constructor
  · intro h
    cases h
  · simp [stop_and_transcribe, provider_transcribe, audio_one_tenth_not_empty, bufferIdleInv]

/-- C2 (amended): `start_recording` and `cancel` always (re)establish the
invariant that `Idle` implies an empty buffer, and `stop_and_transcribe` and
`handle_command` preserve it whenever the buffer is empty beforehand; but a
stop that consumes a non-empty buffer returns to `Idle` with the buffer still
holding the consumed samples — the buffer is only cleared by the next start
or cancel. -/
theorem bufferIdleInv_amended (env : Env) (rate : ℕ) (cmd : IpcCommand) (a : AppModel) :
    bufferIdleInv (start_recording env a).model ∧
    bufferIdleInv (cancel a).model ∧
    (a.buffer = [] → bufferIdleInv (stop_and_transcribe env rate a).model) ∧
    (a.buffer = [] → bufferIdleInv (handle_command env rate cmd a).model) := by
  have hstart : bufferIdleInv (start_recording env a).model := by
    by_cases hc : env.captureOk <;> simp [start_recording, hc, bufferIdleInv]
  have hcancel : bufferIdleInv (cancel a).model := by
    simp [cancel, bufferIdleInv]
  have hstop : a.buffer = [] → bufferIdleInv (stop_and_transcribe env rate a).model := by
    intro hb
    simp [stop_and_transcribe, hb, bufferIdleInv]
  refine ⟨hstart, hcancel, hstop, ?_⟩
  intro hb
  cases cmd with
  | Toggle =>
    cases hst : a.state with
    | Idle =>
      simp only [handle_command, hst]
      exact hstart
    | Recording =>
      simp only [handle_command, hst]
      exact hstop hb
    | Processing =>
      simp only [handle_command, hst]
      exact fun _ => hb
    | Error =>
      simp only [handle_command, hst]
      exact fun _ => hb
  | Start =>
    by_cases hst : a.state = .Idle <;> simp only [handle_command, hst, if_true, if_false,
      reduceIte] <;> first | exact hstart | exact fun _ => hb
  | Stop =>
    by_cases hst : a.state = .Recording <;> simp only [handle_command, hst, reduceIte] <;>
      first | exact hstop hb | exact fun _ => hb
  | Cancel => exact hcancel
  | Status => exact fun _ => hb
  | Shutdown => exact fun _ => hb

/-- C2 amended witness: a stop from Recording with an empty buffer preserves
the invariant at a concrete state. -/
theorem bufferIdleInv_amended_witness :
    bufferIdleInv (stop_and_transcribe
        { captureOk := true, providerSome := true, transcribeResult := .ok "hello" } 10
        { state := .Recording, buffer := [], hasCapture := true,
          hasStream := true, hasTask := true }).model := by
  exact (bufferIdleInv_amended _ 10 .Stop _).2.2.1 rfl

/-- C3 counterexample: with one buffered sample at 16000 Hz — non-empty but
well under 100 ms — a Stop handled in Recording does invoke the provider's
`transcribe` (which rejects the audio), and the orchestrator passes through
`Processing` and `Error` rather than moving directly from Recording to Idle. -/
theorem stop_short_audio_counterexample :
    (handle_command { captureOk := true, providerSome := true, transcribeResult := .ok "hello" }
        16000 .Stop
        { state := .Recording, buffer := [1], hasCapture := true,
          hasStream := true, hasTask := true }).transcribeCalled = true ∧
    (handle_command { captureOk := true, providerSome := true, transcribeResult := .ok "hello" }
        16000 .Stop
        { state := .Recording, buffer := [1], hasCapture := true,
          hasStream := true, hasTask := true }).trace
      = [.setState .Processing, .setState .Error, .sleepSecs 2, .setState .Idle] := by
  constructor <;>
    simp [handle_command, stop_and_transcribe, provider_transcribe,
      audio_short_is_empty, StepResult.transcribeCalled]

/-- C3 (amended): a Stop handled in Recording with zero buffered samples
broadcasts `Processing` and then immediately `Idle` without invoking the
provider; with a non-empty buffer whose duration is under 100 ms (and an
initialised provider) the provider is invoked and rejects the audio with
`InvalidAudio`, after which the orchestrator passes through `Error` and
self-recovers to `Idle`. -/
theorem stop_empty_or_short_buffer (env : Env) (rate : ℕ) (a : AppModel)
    (hrec : a.state = .Recording) :
    (a.buffer = [] →
      (handle_command env rate .Stop a).transcribeCalled = false ∧
      (handle_command env rate .Stop a).model.state = .Idle ∧
      (handle_command env rate .Stop a).trace = [.setState .Processing, .setState .Idle]) ∧
    (a.buffer ≠ [] → env.providerSome = true →
      (AudioData.mk a.buffer rate).is_empty = true →
      (handle_command env rate .Stop a).transcription
          = some (.error (.InvalidAudio "Audio is empty or too short")) ∧
      (handle_command env rate .Stop a).model.state = .Idle ∧
      (handle_command env rate .Stop a).trace
          = [.setState .Processing, .setState .Error, .sleepSecs 2, .setState .Idle]) := by
  constructor
  · intro hb
    simp [handle_command, hrec, stop_and_transcribe, hb, StepResult.transcribeCalled]
  · intro hb hp hshort
    have hne : a.buffer.isEmpty = false := by
      cases h : a.buffer with
      | nil => exact absurd h hb
      | cons x xs => simp
    simp [handle_command, hrec, stop_and_transcribe, hne, hp, provider_transcribe, hshort]

/-- C3 amended witness: both branches at concrete inputs — an empty-buffer
stop skips the provider, and a one-sample 16000 Hz stop is rejected with
`InvalidAudio` after the provider is invoked. -/
theorem stop_empty_or_short_buffer_witness :
    ((handle_command { captureOk := true, providerSome := true, transcribeResult := .ok "hello" }
        16000 .Stop
        { state := .Recording, buffer := [], hasCapture := true,
          hasStream := true, hasTask := true }).transcribeCalled = false ∧
      (handle_command { captureOk := true, providerSome := true, transcribeResult := .ok "hello" }
        16000 .Stop
        { state := .Recording, buffer := [], hasCapture := true,
          hasStream := true, hasTask := true }).model.state = .Idle ∧
      (handle_command { captureOk := true, providerSome := true, transcribeResult := .ok "hello" }
        16000 .Stop
        { state := .Recording, buffer := [], hasCapture := true,
          hasStream := true, hasTask := true }).trace
        = [.setState .Processing, .setState .Idle]) ∧
    (handle_command { captureOk := true, providerSome := true, transcribeResult := .ok "hello" }
        16000 .Stop
        { state := .Recording, buffer := [1], hasCapture := true,
          hasStream := true, hasTask := true }).transcription
      = some (.error (.InvalidAudio "Audio is empty or too short")) := by
  constructor
  · exact (stop_empty_or_short_buffer _ 16000 _ rfl).1 rfl
  · exact ((stop_empty_or_short_buffer _ 16000 _ rfl).2 (by simp) rfl
      audio_short_is_empty).1

/-- C4: a Start command received while Recording is a no-op — the operation
returns the untouched state record (the single capture, stream and task slots
in particular), creates no `CaptureSession`, broadcasts nothing, invokes
nothing, and reports no error.  (A Toggle in Recording is interpreted as
stop, never as a second start.) -/
theorem start_while_recording_noop (env : Env) (rate : ℕ) (a : AppModel)
    (hrec : a.state = .Recording) :
    handle_command env rate .Start a = noopResult a := by
  simp [handle_command, hrec]

/-- C4 witness: at a concrete Recording state, Start is a no-op. -/
theorem start_while_recording_noop_witness :
    handle_command { captureOk := true, providerSome := true, transcribeResult := .ok "hello" }
        16000 .Start
        { state := .Recording, buffer := [1], hasCapture := true,
          hasStream := true, hasTask := true }
      = noopResult
        { state := .Recording, buffer := [1], hasCapture := true,
          hasStream := true, hasTask := true } := by
  exact start_while_recording_noop _ 16000 _ rfl

/-- C5: when the provider's transcription of a non-empty buffer fails, the
orchestrator broadcasts `Processing`, then `Error`, then — after the fixed
2 s recovery sleep and with no further command — `Idle`; the operation ends
in `Idle` and returns no error, so `Error` is never terminal. -/
theorem transcription_failure_recovers (env : Env) (rate : ℕ) (a : AppModel) (e : SttError)
    (hbuf : a.buffer ≠ [])
    (hp : env.providerSome = true)
    (hfail : provider_transcribe env (AudioData.mk a.buffer rate) = .error e) :
    (stop_and_transcribe env rate a).trace
        = [.setState .Processing, .setState .Error, .sleepSecs 2, .setState .Idle] ∧
    (stop_and_transcribe env rate a).model.state = .Idle ∧
    (stop_and_transcribe env rate a).err = none := by
  have hne : a.buffer.isEmpty = false := by
    cases h : a.buffer with
    | nil => exact absurd h hbuf
    | cons x xs => simp
  simp [stop_and_transcribe, hne, hp, hfail]

/-- C5 witness: a failing transcription of a one-sample 100 ms buffer at a
concrete state passes through Error and ends Idle. -/
theorem transcription_failure_recovers_witness :
    (stop_and_transcribe
        { captureOk := true, providerSome := true,
          transcribeResult := .error (.TranscriptionError "boom") } 10
        { state := .Recording, buffer := [1], hasCapture := true,
          hasStream := true, hasTask := true }).trace
      = [.setState .Processing, .setState .Error, .sleepSecs 2, .setState .Idle] := by
  exact (transcription_failure_recovers _ 10 _ (.TranscriptionError "boom") (by simp) rfl
    (by simp [provider_transcribe, audio_one_tenth_not_empty])).1

/-- C6: handling a Cancel command while Recording returns the orchestrator to
`Idle` with an empty buffer, whatever the buffer held. -/
theorem cancel_returns_idle_empty (env : Env) (rate : ℕ) (a : AppModel)
    (_hrec : a.state = .Recording) :
    (handle_command env rate .Cancel a).model.state = .Idle ∧
    (handle_command env rate .Cancel a).model.buffer = [] := by
  simp [handle_command, cancel]

/-- C6 witness: cancel at a concrete Recording state with a non-empty buffer. -/
theorem cancel_returns_idle_empty_witness :
    (handle_command { captureOk := true, providerSome := true, transcribeResult := .ok "hello" }
        16000 .Cancel
        { state := .Recording, buffer := [1, 2, 3], hasCapture := true,
          hasStream := true, hasTask := true }).model.state = .Idle ∧
    (handle_command { captureOk := true, providerSome := true, transcribeResult := .ok "hello" }
        16000 .Cancel
        { state := .Recording, buffer := [1, 2, 3], hasCapture := true,
          hasStream := true, hasTask := true }).model.buffer = [] := by
  exact cancel_returns_idle_empty _ 16000 _ rfl

/-! ## Provider theorems -/

/-- C8: for each remote provider, a missing API key (absent from both the
config file and the process environment) makes the constructor fail with
`ProviderUnavailable`; a present key makes construction succeed; and a
constructed provider's `transcribe` can never produce `ProviderUnavailable` —
credentials are not checked inside the individual call.  The OpenAI
conjuncts hold of the spec-modelled definitions, its source file being
absent from the tree. -/
theorem credentials_fail_construction (c : AppConfig) :
    (c.groq_api_key = none →
      GroqProvider.new c = .error (.ProviderUnavailable "Groq API key not configured")) ∧
    (∀ k, c.groq_api_key = some k → ∃ p, GroqProvider.new c = .ok p) ∧
    (∀ p audio lang resp m,
      (groq_transcribe p audio lang resp).result ≠ .error (.ProviderUnavailable m)) ∧
    (c.deepgram_api_key = none →
      DeepgramProvider.new c
        = .error (.ProviderUnavailable "Deepgram API key not configured")) ∧
    (∀ k, c.deepgram_api_key = some k → ∃ p, DeepgramProvider.new c = .ok p) ∧
    (∀ p audio lang resp m,
      (deepgram_transcribe p audio lang resp).result ≠ .error (.ProviderUnavailable m)) ∧
    (c.openai_api_key = none →
      OpenAIProvider.new c
        = .error (.ProviderUnavailable "OpenAI API key not configured")) ∧
    (∀ k, c.openai_api_key = some k → ∃ p, OpenAIProvider.new c = .ok p) ∧
    (∀ p audio lang resp m,
      (openai_transcribe p audio lang resp).result ≠ .error (.ProviderUnavailable m)) := by
  refine ⟨?_, ?_, ?_, ?_, ?_, ?_, ?_, ?_, ?_⟩
  · intro h
    simp [GroqProvider.new, h]
  · intro k hk
    refine ⟨{ apiKey := k, model := c.providers.groq.model,
              endpoint := c.providers.groq.endpoint }, ?_⟩
    simp [GroqProvider.new, hk]
  · intro p audio lang resp m
    by_cases he : audio.is_empty
    · simp [groq_transcribe, he]
    · by_cases hs : resp.success
      · cases hp : resp.parsed <;> simp [groq_transcribe, he, hs, hp]
      · simp [groq_transcribe, he, hs]
  · intro h
    simp [DeepgramProvider.new, h]
  · intro k hk
    refine ⟨{ apiKey := k, model := c.providers.deepgram.model,
              features := c.providers.deepgram.features }, ?_⟩
    simp [DeepgramProvider.new, hk]
  · intro p audio lang resp m
    by_cases he : audio.is_empty
    · simp [deepgram_transcribe, he]
    · by_cases hs : resp.success
      · cases hp : resp.parsed <;> simp [deepgram_transcribe, he, hs, hp]
      · simp [deepgram_transcribe, he, hs]
  · intro h
    simp [OpenAIProvider.new, h]
  · intro k hk
    refine ⟨{ apiKey := k, model := c.providers.openai.model,
              endpoint := c.providers.openai.endpoint }, ?_⟩
    simp [OpenAIProvider.new, hk]
  · intro p audio lang resp m
    by_cases he : audio.is_empty
    · simp [openai_transcribe, he]
    · by_cases hs : resp.success
      · cases hp : resp.parsed <;> simp [openai_transcribe, he, hs, hp]
      · simp [openai_transcribe, he, hs]

/-- C8 witness: a configuration with no keys anywhere makes all three
constructors fail with `ProviderUnavailable`, and a concrete Groq
`transcribe` run does not produce `ProviderUnavailable`. -/
theorem credentials_fail_construction_witness :
    GroqProvider.new
        { providers :=
            { openai := { apiKey := none, model := "whisper-1", endpoint := "e" },
              groq := { apiKey := none, model := "whisper-large-v3", endpoint := "e" },
              deepgram := { apiKey := none, model := "nova-2", features := [] } },
          envv := { openaiKey := none, groqKey := none, deepgramKey := none } }
      = .error (.ProviderUnavailable "Groq API key not configured") ∧
    (groq_transcribe { apiKey := "k", model := "m", endpoint := "e" }
        (AudioData.mk [(1 : ℚ)] 10) none
        { success := true, status := 200, body := "", parsed := some "hi" }).result
      ≠ .error (.ProviderUnavailable "nope") := by
  constructor
  · exact (credentials_fail_construction _).1 rfl
  · exact (credentials_fail_construction
      { providers :=
          { openai := { apiKey := none, model := "whisper-1", endpoint := "e" },
            groq := { apiKey := none, model := "whisper-large-v3", endpoint := "e" },
            deepgram := { apiKey := none, model := "nova-2", features := [] } },
        envv := { openaiKey := none, groqKey := none, deepgramKey := none } }).2.2.1 _ _ _ _ _

/-- C9: audio is treated as empty/invalid exactly when it has zero samples or
a duration below 100 ms; and every provider's `transcribe` — the Groq and
Deepgram ones from the source, the spec-modelled OpenAI one, and the local
whisper one — rejects such audio with `InvalidAudio` without invoking its
backend (no network request, no inference). -/
theorem short_audio_rejected_before_backend (audio : AudioData)
    (_hrate : 0 < audio.sampleRate) :
    (audio.is_empty = true ↔ audio.samples = [] ∨ audio.duration < 1 / 10) ∧
    (audio.is_empty = true →
      (∀ p lang resp, groq_transcribe p audio lang resp
          = { result := .error (.InvalidAudio "Audio is empty or too short"),
              backendInvoked := false }) ∧
      (∀ p lang resp, deepgram_transcribe p audio lang resp
          = { result := .error (.InvalidAudio "Audio is empty or too short"),
              backendInvoked := false }) ∧
      (∀ p lang resp, openai_transcribe p audio lang resp
          = { result := .error (.InvalidAudio "Audio is empty or too short"),
              backendInvoked := false }) ∧
      (∀ lang inference, whisper_transcribe audio lang inference
          = { result := .error (.InvalidAudio "Audio is empty or too short"),
              backendInvoked := false })) := by
  constructor
  · simp [AudioData.is_empty, List.isEmpty_iff]
  · intro he
    refine ⟨?_, ?_, ?_, ?_⟩
    · intro p lang resp
      simp [groq_transcribe, he]
    · intro p lang resp
      simp [deepgram_transcribe, he]
    · intro p lang resp
      simp [openai_transcribe, he]
    · intro lang inference
      simp [whisper_transcribe, he]

/-- C9 witness: one sample at 16000 Hz is 1/16000 s of audio — under 100 ms —
and the Groq `transcribe` rejects it before any network use. -/
theorem short_audio_rejected_before_backend_witness :
    groq_transcribe { apiKey := "k", model := "m", endpoint := "e" }
        (AudioData.mk [(1 : ℚ)] 16000) none
        { success := true, status := 200, body := "", parsed := some "hi" }
      = { result := .error (.InvalidAudio "Audio is empty or too short"),
          backendInvoked := false } := by
  exact ((short_audio_rejected_before_backend (AudioData.mk [(1 : ℚ)] 16000)
    (by decide)).2 audio_short_is_empty).1 _ _ _

end SuperWhisper
